import Mathlib

/-!
Shallow embedding of the hosted manifestwork event router
(`pkg/controller/hosted/manager.go`) and of the clusterdeployment
reconciler (`ReconcileClusterDeployment`) of the
managedcluster-import-controller repository, together with proofs of the
specification claims about them.

Go strings are modelled by `String` (ASCII payloads in every claim),
Kubernetes objects by structures carrying exactly the fields the embedded
code reads, and the external API calls made by `Reconcile` by a `World`
record holding each call's outcome, so that `Reconcile` becomes a pure
function of the world.
-/

set_option autoImplicit false

namespace MCImport

/-- Go `strings.HasSuffix s suf`: `s` ends with `suf` (byte-wise; all strings
here are ASCII, so character-wise equality agrees). -/
def hasSuffix (s suf : String) : Bool :=
  s.takeRight suf.length == suf

/-- Go `strings.TrimSuffix s suf`: drop a trailing `suf` when present,
otherwise return `s` unchanged. -/
def trimSuffix (s suf : String) : String :=
  if hasSuffix s suf then s.dropRight suf.length else s

/-- ASCII lower-casing of one character. -/
def foldChar (c : Char) : Char :=
  if 65 ≤ c.toNat ∧ c.toNat ≤ 90 then Char.ofNat (c.toNat + 32) else c

/-- Go `strings.EqualFold` restricted to ASCII: case-insensitive equality. -/
def equalFold (a b : String) : Bool :=
  a.data.map foldChar == b.data.map foldChar

/-! ### Constants

The repository's `pkg/constants` package is not among the provided source
files; the constant values are modelled from the spec. -/

/-- Modelled from the spec: the hosted klusterlet work-object name suffix
(missing `pkg/constants`); the spec's hosted-suffix-recovery example maps
"cluster-a-klusterlet" to "cluster-a". -/
def HostedKlusterletManifestworkSuffix : String := "klusterlet"

/-- Modelled from the spec: the hosted managed-kubeconfig work-object name
suffix (missing `pkg/constants`); the spec maps "cluster-a-kubeconfig"
(registered suffix) to "cluster-a". -/
def HostedManagedKubeconfigManifestworkSuffix : String := "kubeconfig"

/-- Modelled from the spec: the klusterlet deploy-mode marker key (missing
`pkg/constants`), the "hosted-deployment-mode marker" of the spec. -/
def KlusterletDeployModeKey : String :=
  "import.open-cluster-management.io/klusterlet-deploy-mode"

/-- Modelled from the spec: the hosted deploy-mode marker value (missing
`pkg/constants`), compared case-insensitively by the source. -/
def KlusterletDeployModeHosted : String := "Hosted"

/-- Modelled from the spec: the legacy import finalizer string (missing
`pkg/constants`); the spec's finalizer-safety example calls it
"legacy-import". -/
def ImportFinalizer : String := "legacy-import"

/-- Modelled from the spec: the provenance ("created-via") marker key on the
cluster record (missing `pkg/constants`). -/
def CreatedViaKey : String := "open-cluster-management/created-via"

/-- Modelled from the spec: the provenance value set by the discovery
subsystem (missing `pkg/constants`). -/
def CreatedViaDiscovery : String := "discovery"

/-- Modelled from the spec: the provenance value for bare-metal-agent
(assisted-installer) platforms (missing `pkg/constants`). -/
def CreatedViaAI : String := "assisted-installer"

/-- Modelled from the spec: the provenance value for generic hive
installations (missing `pkg/constants`). -/
def CreatedViaHive : String := "hive"

/-! ### Objects -/

/-- A generated work object (`workv1.ManifestWork`): its namespace, its name
and its rendered manifest contents (`Spec.Workload.Manifests`, kept
opaque as a list of manifest bodies). -/
structure ManifestWork where
  nspace : String
  name : String
  manifests : List String
deriving DecidableEq, Repr

/-- A secret (`corev1.Secret`): namespace, name, the `Data` payload (a map
from key to bytes, modelled as an association list) and the metadata
annotation set (also an association list). -/
structure Secret where
  nspace : String
  name : String
  data : List (String × List Nat)
  annos : List (String × String)
deriving DecidableEq, Repr

/-- Go map lookup with zero value: `annos[key]` returns `""` when absent. -/
def lookupDefault (annos : List (String × String)) (key : String) : String :=
  match annos.lookup key with
  | some v => v
  | none => ""

/-- `isHostedModeObject` of `pkg/controller/hosted/manager.go`: the
deploy-mode marker value equals the hosted value, case-insensitively. -/
def isHostedModeObject (annos : List (String × String)) : Bool :=
  equalFold (lookupDefault annos KlusterletDeployModeKey) KlusterletDeployModeHosted

/-- Modelled from the spec: `helpers.ManifestsEqual` (missing
`pkg/helpers`) — equality of the rendered manifest contents. -/
def ManifestsEqual (a b : List String) : Bool :=
  a == b

/-! ### Event router (`Add` in `pkg/controller/hosted/manager.go`) -/

/-- The `MapFunc` of the hosted work source: start from the object's
namespace; if the name ends with the klusterlet suffix, replace it by the
name with `"-" ++ suffix` trimmed; then, if it ends with the kubeconfig
suffix, replace it by the name with that trimmed (the second `if` is not
an `else if` in the source). -/
def hostedWorkMapFunc (o : ManifestWork) : String :=
  let n1 :=
    if hasSuffix o.name HostedKlusterletManifestworkSuffix then
      trimSuffix o.name ("-" ++ HostedKlusterletManifestworkSuffix)
    else o.nspace
  if hasSuffix o.name HostedManagedKubeconfigManifestworkSuffix then
    trimSuffix o.name ("-" ++ HostedManagedKubeconfigManifestworkSuffix)
  else n1

/-- The `UpdateFunc` predicate of the hosted work source, exactly as in the
source: `if !HasSuffix(name, klusterletSuffix) || !HasSuffix(name,
kubeconfigSuffix) { return false }`, else compare manifests. The type
assertions always succeed in this embedding (the informer only delivers
`ManifestWork`s). -/
def hostedWorkUpdateFunc (oldW newW : ManifestWork) : Bool :=
  if !hasSuffix newW.name HostedKlusterletManifestworkSuffix
      || !hasSuffix newW.name HostedManagedKubeconfigManifestworkSuffix then
    false
  else
    !ManifestsEqual newW.manifests oldW.manifests

/-- The `CreateFunc` predicate of the hosted work source: always true. -/
def hostedWorkCreateFunc (_o : ManifestWork) : Bool := true

/-- The `DeleteFunc` predicate of the hosted work source: always true. -/
def hostedWorkDeleteFunc (_o : ManifestWork) : Bool := true

/-- The `CreateFunc` predicate of the import-secret source: only
hosted-mode import secrets are interesting. -/
def importSecretCreateFunc (s : Secret) : Bool :=
  isHostedModeObject s.annos

/-- The `DeleteFunc` predicate of the import-secret source: always false. -/
def importSecretDeleteFunc (_s : Secret) : Bool := false

/-- The `GenericFunc` predicate of the import-secret source: always false. -/
def importSecretGenericFunc (_s : Secret) : Bool := false

/-- The `UpdateFunc` predicate of the import-secret source:
`!equality.Semantic.DeepEqual(old.Data, new.Data)`. -/
def importSecretUpdateFunc (oldS newS : Secret) : Bool :=
  !(oldS.data == newS.data)

/-- The `CreateFunc` predicate of the auto-import-secret source: always
true. -/
def autoImportSecretCreateFunc (_s : Secret) : Bool := true

/-- The `DeleteFunc` predicate of the auto-import-secret source: always
false. -/
def autoImportSecretDeleteFunc (_s : Secret) : Bool := false

/-- The `UpdateFunc` predicate of the auto-import-secret source:
`!equality.Semantic.DeepEqual(old.Data, new.Data)`. -/
def autoImportSecretUpdateFunc (oldS newS : Secret) : Bool :=
  !(oldS.data == newS.data)

/-- Modelled from the spec: the key extracted for secret events by
`source.ManagedClusterResourceEventHandler` with no `MapFunc` (missing
`pkg/source`) — "Credential/payload/override secret change → key = the
secret's namespace". -/
def secretEventKey (s : Secret) : String :=
  s.nspace

/-! ### Cluster deployment reconciler (`ReconcileClusterDeployment`) -/

/-- The fields of `hivev1.ClusterDeployment` read by the reconciler.
`clusterPoolRef` models `Spec.ClusterPoolRef` (`none` = nil pointer) by
its claimed timestamp (`0` = zero time). `agentBareMetal` models
`Spec.Platform.AgentBareMetal != nil`. `clusterMetadata` models the
`Spec.ClusterMetadata` pointer (`none` = nil), holding the
`AdminKubeconfigSecretRef.Name`. `deletionTimestamp = 0` models a zero
deletion timestamp. -/
structure ClusterDeployment where
  name : String
  finalizers : List String
  deletionTimestamp : Nat
  installed : Bool
  clusterPoolRef : Option Nat
  agentBareMetal : Bool
  clusterMetadata : Option String
deriving DecidableEq, Repr

/-- The fields of `clusterv1.ManagedCluster` read by the reconciler. -/
structure ManagedCluster where
  name : String
  annos : List (String × String)
deriving DecidableEq, Repr

/-- A `metav1.Condition` (status `true` = `ConditionTrue`). -/
structure Condition where
  ctype : String
  status : Bool
  reason : String
  message : String
deriving DecidableEq, Repr

/-- Outcome of a Kubernetes `Get`: found, not-found, or another error. -/
inductive K8sGet (α : Type) where
  | found (a : α)
  | notFound
  | failed (e : String)
deriving DecidableEq, Repr

/-- The outcomes of every external call `Reconcile` may make, making the
reconciler a pure function of this record. `patchCluster`,
`generateClient`, `importFromSecret`, `updateStatus` and
`patchFinalizers` are `none` on success and `some e` on failure with
error text `e`; `hiveSecret` is the admin-credential secret `Get` (the
source propagates even its not-found as an error); `worksList` is the
labeled work-object count or a list error. -/
structure World where
  clusterDeployment : K8sGet ClusterDeployment
  managedCluster : K8sGet ManagedCluster
  patchCluster : Option String
  autoImportSecret : K8sGet Unit
  hiveSecret : K8sGet Unit
  generateClient : Option String
  importSecret : K8sGet Unit
  worksList : Except String Nat
  importFromSecret : Option String
  updateStatus : Option String
  patchFinalizers : Option String

/-- The observable side effects of one `Reconcile` run. -/
structure Effects where
  applied : Bool := false
  conditionWritten : Option Condition := none
  clusterPatched : Bool := false
  clusterEventEmitted : Bool := false
  finalizersPatched : Bool := false
  finalizerEventEmitted : Bool := false
deriving DecidableEq, Repr

/-- Result of a `Reconcile` run: a normal return carrying the effects and the
list of collected errors (`[]` models a nil aggregate error; the source
always returns `reconcile.Result{}`, i.e. no requeue), or a nil-pointer
panic (`clusterDeployment.Spec.ClusterMetadata` dereferenced while nil). -/
inductive RecResult where
  | ret (eff : Effects) (errs : List String)
  | nilDerefPanic (eff : Effects)
deriving DecidableEq, Repr

/-- Result of `setCreatedViaAnnos` / `removeImportFinalizer`: the resulting
field value on the object, whether a patch was issued and succeeded,
whether the audit event was emitted, and the returned error. -/
structure MutOutcome (α : Type) where
  value : α
  patched : Bool
  eventEmitted : Bool
  error : Option String
deriving DecidableEq, Repr

/-- The provenance value chosen by `setCreatedViaAnnotation`: `CreatedViaAI`
when `Spec.Platform.AgentBareMetal != nil`, else `CreatedViaHive`. -/
def desiredCreatedVia (cd : ClusterDeployment) : String :=
  if cd.agentBareMetal then CreatedViaAI else CreatedViaHive

/-- Association-list update, modelling the map write done by
`resourcemerge.MergeMap`. -/
def setAnno : List (String × String) → String → String → List (String × String)
  | [], k, v => [(k, v)]
  | (k0, v0) :: rest, k, v =>
      if k0 = k then (k, v) :: rest else (k0, v0) :: setAnno rest k v

/-- `setCreatedViaAnnotation` of the source: return immediately when the
provenance marker already reads `CreatedViaDiscovery`; otherwise merge
the desired value into the annotation map (`resourcemerge.MergeMap` sets
`modified` iff the key is absent or its value differs); when unmodified
return with no patch and no event, else patch (merge-patch) and emit the
`ManagedClusterLabelsUpdated` event on success. -/
def setCreatedViaAnnos (patchResult : Option String) (cd : ClusterDeployment)
    (mc : ManagedCluster) : MutOutcome (List (String × String)) :=
  if lookupDefault mc.annos CreatedViaKey = CreatedViaDiscovery then
    ⟨mc.annos, false, false, none⟩
  else
    let desired := desiredCreatedVia cd
    if mc.annos.lookup CreatedViaKey = some desired then
      ⟨mc.annos, false, false, none⟩
    else
      match patchResult with
      | some e => ⟨mc.annos, false, false, some e⟩
      | none => ⟨setAnno mc.annos CreatedViaKey desired, true, true, none⟩

/-- `removeImportFinalizer` of the source: no-op (nil error) when the import
finalizer is absent or when other finalizers remain (length ≠ 1);
otherwise patch the finalizer list to empty and emit the
`ClusterDeploymentFinalizerRemoved` event on success. -/
def removeImportFinalizer (patchResult : Option String) (cd : ClusterDeployment) :
    MutOutcome (List String) :=
  if !cd.finalizers.contains ImportFinalizer then
    ⟨cd.finalizers, false, false, none⟩
  else if cd.finalizers.length ≠ 1 then
    ⟨cd.finalizers, false, false, none⟩
  else
    match patchResult with
    | some e => ⟨cd.finalizers, false, false, some e⟩
    | none => ⟨[], true, true, none⟩

/-- The success condition written on import success. -/
def successCondition : Condition :=
  ⟨"ManagedClusterImportSucceeded", true, "ManagedClusterImported", "Import succeeded"⟩

/-- The failure condition written when `ImportManagedClusterFromSecret`
fails with error text `e`. -/
def failureCondition (clusterName e : String) : Condition :=
  ⟨"ManagedClusterImportSucceeded", false, "ManagedClusterNotImported",
    "Unable to import " ++ clusterName ++ ": " ++ e⟩

/-- `ReconcileClusterDeployment.Reconcile`, step by step from the source:
get the cluster deployment (not-found → nil); if deleting, run finalizer
cleanup and return its error; get the managed cluster (not-found → nil);
not installed → nil; pool-claimed timestamp zero → nil; set the
created-via provenance marker (error → return it); auto-import secret
present → nil; read the admin kubeconfig secret name through the
`ClusterMetadata` pointer (nil → panic); get the hive secret (any error,
not-found included, → return it); build the hive client (error → return
it); get the import secret (not-found → nil); list labeled klusterlet
works (error → return it); count ≠ 2 → nil; otherwise apply the import
secret and write the outcome condition, aggregating both errors. -/
def Reconcile (w : World) : RecResult :=
  match w.clusterDeployment with
  | .notFound => .ret {} []
  | .failed e => .ret {} [e]
  | .found cd =>
    if cd.deletionTimestamp ≠ 0 then
      let fo := removeImportFinalizer w.patchFinalizers cd
      .ret { finalizersPatched := fo.patched, finalizerEventEmitted := fo.eventEmitted }
        fo.error.toList
    else
      match w.managedCluster with
      | .notFound => .ret {} []
      | .failed e => .ret {} [e]
      | .found mc =>
        if !cd.installed then .ret {} []
        else if cd.clusterPoolRef = some 0 then .ret {} []
        else
          let ao := setCreatedViaAnnos w.patchCluster cd mc
          let eff : Effects :=
            { clusterPatched := ao.patched, clusterEventEmitted := ao.eventEmitted }
          match ao.error with
          | some e => .ret eff [e]
          | none =>
            match w.autoImportSecret with
            | .found _ => .ret eff []
            | .failed e => .ret eff [e]
            | .notFound =>
              match cd.clusterMetadata with
              | none => .nilDerefPanic eff
              | some _secretRefName =>
                match w.hiveSecret with
                | .notFound => .ret eff ["hive admin kubeconfig secret not found"]
                | .failed e => .ret eff [e]
                | .found _ =>
                  match w.generateClient with
                  | some e => .ret eff [e]
                  | none =>
                    match w.importSecret with
                    | .notFound => .ret eff []
                    | .failed e => .ret eff [e]
                    | .found _ =>
                      match w.worksList with
                      | .error e => .ret eff [e]
                      | .ok n =>
                        if n ≠ 2 then .ret eff []
                        else
                          let applyErrs :=
                            match w.importFromSecret with
                            | none => []
                            | some e => [e]
                          let cond :=
                            match w.importFromSecret with
                            | none => successCondition
                            | some e => failureCondition cd.name e
                          let statusErrs :=
                            match w.updateStatus with
                            | none => []
                            | some e => [e]
                          .ret { eff with applied := true, conditionWritten := some cond }
                            (applyErrs ++ statusErrs)

/-! ### Scenario predicates and concrete worlds used by the theorems -/

/-- The readiness gates up to and including the pool-claim check. -/
def gatesToClaim (w : World) (cd : ClusterDeployment) (mc : ManagedCluster) : Prop :=
  w.clusterDeployment = .found cd ∧ cd.deletionTimestamp = 0 ∧
  w.managedCluster = .found mc ∧ cd.installed = true ∧ cd.clusterPoolRef ≠ some 0

/-- The readiness gates up to (excluding) the import-secret lookup: the
claim gates, a successful provenance write, no auto-import override, a
non-nil cluster metadata pointer, a resolvable hive secret and a
successfully built hive client. -/
def gatesToImportSecret (w : World) (cd : ClusterDeployment) (mc : ManagedCluster) : Prop :=
  gatesToClaim w cd mc ∧
  (setCreatedViaAnnos w.patchCluster cd mc).error = none ∧
  w.autoImportSecret = .notFound ∧ cd.clusterMetadata.isSome = true ∧
  w.hiveSecret = .found () ∧ w.generateClient = none

/-- One of the readiness dependencies is absent, every operation before the
missing dependency having succeeded: the install record is gone, or the
cluster record is gone, or the deployment is not installed, or the pool
claim is pending, or the auto-import override is present, or the import
secret is missing, or the labeled work count differs from 2. -/
def gateAbsence (w : World) : Prop :=
  w.clusterDeployment = .notFound
  ∨ (∃ cd, w.clusterDeployment = .found cd ∧ cd.deletionTimestamp = 0 ∧
       w.managedCluster = .notFound)
  ∨ (∃ cd mc, w.clusterDeployment = .found cd ∧ cd.deletionTimestamp = 0 ∧
       w.managedCluster = .found mc ∧ cd.installed = false)
  ∨ (∃ cd mc, w.clusterDeployment = .found cd ∧ cd.deletionTimestamp = 0 ∧
       w.managedCluster = .found mc ∧ cd.installed = true ∧ cd.clusterPoolRef = some 0)
  ∨ (∃ cd mc, gatesToClaim w cd mc ∧
       (setCreatedViaAnnos w.patchCluster cd mc).error = none ∧
       w.autoImportSecret = .found ())
  ∨ (∃ cd mc, gatesToImportSecret w cd mc ∧ w.importSecret = .notFound)
  ∨ (∃ cd mc n, gatesToImportSecret w cd mc ∧ w.importSecret = .found () ∧
       w.worksList = .ok n ∧ n ≠ 2)

/-- A fully ready cluster deployment named `c1`. -/
def cdReady : ClusterDeployment :=
  ⟨"c1", [], 0, true, none, false, some "c1-admin-kubeconfig"⟩

/-- A managed cluster `c1` whose provenance marker already reads `hive`. -/
def mcReady : ManagedCluster :=
  ⟨"c1", [(CreatedViaKey, CreatedViaHive)]⟩

/-- A world where every gate passes but both the manifest application and
the condition write fail. -/
def wBothFail : World :=
  { clusterDeployment := .found cdReady
    managedCluster := .found mcReady
    patchCluster := none
    autoImportSecret := .notFound
    hiveSecret := .found ()
    generateClient := none
    importSecret := .found ()
    worksList := .ok 2
    importFromSecret := some "boom"
    updateStatus := some "cond write failed"
    patchFinalizers := none }

/-- A world where every gate passes and every operation succeeds. -/
def wAllOk : World :=
  { clusterDeployment := .found cdReady
    managedCluster := .found mcReady
    patchCluster := none
    autoImportSecret := .notFound
    hiveSecret := .found ()
    generateClient := none
    importSecret := .found ()
    worksList := .ok 2
    importFromSecret := none
    updateStatus := none
    patchFinalizers := none }

/-- A world identical to `wAllOk` except that the deployment's
`ClusterMetadata` pointer is nil. -/
def wNilMetadata : World :=
  { wAllOk with clusterDeployment := .found { cdReady with clusterMetadata := none } }

/-- A world where the install record is absent. -/
def wNoDeployment : World :=
  { wAllOk with clusterDeployment := .notFound }

/-! ### Helper lemmas -/

/-- Two suffixes of equal length of the same string coincide. -/
theorem suffix_unique (s a b : String) (hlen : a.length = b.length)
    (ha : hasSuffix s a = true) (hb : hasSuffix s b = true) : a = b := by
  unfold hasSuffix at ha hb
  rw [beq_iff_eq] at ha hb
  rw [← ha, ← hb, hlen]

/-- No name ends with both hosted suffixes. -/
theorem not_both_hosted_suffixes (s : String) :
    ¬(hasSuffix s HostedKlusterletManifestworkSuffix = true ∧
      hasSuffix s HostedManagedKubeconfigManifestworkSuffix = true) := by
  rintro ⟨h1, h2⟩
  have h := suffix_unique s _ _ (by decide) h1 h2
  exact absurd h (by decide)

/-- A list contains `x` and has length one exactly when it is `[x]`. -/
theorem contains_and_length_one {l : List String} {x : String} :
    (l.contains x = true ∧ l.length = 1) ↔ l = [x] := by
  constructor
  · rintro ⟨hc, hl⟩
    match l with
    | [a] =>
      simp only [List.contains, List.elem_cons, List.elem_nil] at hc
      rcases Bool.or_eq_true_iff.mp hc with h | h
      · rw [List.cons.injEq]
        exact ⟨(beq_iff_eq.mp h).symm, rfl⟩
      · cases h
  · rintro rfl
    simp

/-- Updating an association list then looking the key up yields the new
value. -/
theorem lookup_setAnno (a : List (String × String)) (k v : String) :
    (setAnno a k v).lookup k = some v := by
  induction a with
  | nil => simp [setAnno, List.lookup]
  | cons hd tl ih =>
    obtain ⟨k0, v0⟩ := hd
    by_cases h : k0 = k
    · simp [setAnno, h, List.lookup]
    · have hk : (k == k0) = false := by
        simp only [beq_eq_false_iff_ne, ne_eq]
        exact fun he => h he.symm
      simp only [setAnno, if_neg h, List.lookup, hk]
      exact ih

/-! ### Claim theorems -/

/-- C1: the claim says the hosted work-object update predicate routes an
update exactly when the rendered manifests changed, and in particular
routes an update to a work object ending in exactly one recognized hosted
suffix whose manifests changed. The source's guard `!HasSuffix(name,
klusterletSuffix) || !HasSuffix(name, kubeconfigSuffix)` rejects every
name (no name ends with both suffixes), so the predicate is constantly
false, contradicting the source's own comment ("only watch hosted mode
manifest works") and the claim: the update at the failing input is
suppressed even though its manifests changed. -/
theorem hostedWorkUpdateFunc_constantly_false :
    hostedWorkUpdateFunc ⟨"cluster-a", "cluster-a-klusterlet", ["manifest-old"]⟩
      ⟨"cluster-a", "cluster-a-klusterlet", ["manifest-new"]⟩ = false
    ∧ ∀ oldW newW : ManifestWork, hostedWorkUpdateFunc oldW newW = false := by
  constructor
  · decide
  · intro oldW newW
    unfold hostedWorkUpdateFunc
    by_cases h1 : hasSuffix newW.name HostedKlusterletManifestworkSuffix = true
    · by_cases h2 : hasSuffix newW.name HostedManagedKubeconfigManifestworkSuffix = true
      · exact absurd ⟨h1, h2⟩ (not_both_hosted_suffixes newW.name)
      · simp [h1, h2]
    · simp [h1]

/-- C2: the hosted work-object key-mapping function returns the object's
namespace unless the name ends with a recognized hosted suffix, in which
case it returns the name with `"-" ++ suffix` trimmed; concretely
"cluster-a-klusterlet" maps to "cluster-a", "cluster-a-kubeconfig" maps
to "cluster-a", and an unrelated name in namespace "cluster-b" maps to
"cluster-b". -/
theorem hostedWorkMapFunc_key :
    (∀ o : ManifestWork,
        hasSuffix o.name HostedKlusterletManifestworkSuffix = false →
        hasSuffix o.name HostedManagedKubeconfigManifestworkSuffix = false →
        hostedWorkMapFunc o = o.nspace)
    ∧ (∀ o : ManifestWork,
        hasSuffix o.name HostedKlusterletManifestworkSuffix = true →
        hostedWorkMapFunc o = trimSuffix o.name ("-" ++ HostedKlusterletManifestworkSuffix))
    ∧ (∀ o : ManifestWork,
        hasSuffix o.name HostedManagedKubeconfigManifestworkSuffix = true →
        hostedWorkMapFunc o =
          trimSuffix o.name ("-" ++ HostedManagedKubeconfigManifestworkSuffix))
    ∧ hostedWorkMapFunc ⟨"ns-x", "cluster-a-klusterlet", []⟩ = "cluster-a"
    ∧ hostedWorkMapFunc ⟨"ns-x", "cluster-a-kubeconfig", []⟩ = "cluster-a"
    ∧ hostedWorkMapFunc ⟨"cluster-b", "unrelated-name", []⟩ = "cluster-b" := by
  refine ⟨?_, ?_, ?_, by decide, by decide, by decide⟩
  · intro o h1 h2
    simp [hostedWorkMapFunc, h1, h2]
  · intro o h1
    have h2 : hasSuffix o.name HostedManagedKubeconfigManifestworkSuffix = false := by
      by_contra hc
      exact not_both_hosted_suffixes o.name ⟨h1, by simpa using hc⟩
    simp [hostedWorkMapFunc, h1, h2]
  · intro o h2
    simp [hostedWorkMapFunc, h2]

/-- C2 witness: the map function evaluated through the theorem at concrete
objects. -/
theorem hostedWorkMapFunc_key_witness :
    hostedWorkMapFunc ⟨"cluster-b", "unrelated-name", []⟩ = "cluster-b"
    ∧ hostedWorkMapFunc ⟨"ns-x", "cluster-a-klusterlet", []⟩ =
        trimSuffix "cluster-a-klusterlet" ("-" ++ HostedKlusterletManifestworkSuffix)
    ∧ hostedWorkMapFunc ⟨"ns-x", "cluster-a-kubeconfig", []⟩ =
        trimSuffix "cluster-a-kubeconfig" ("-" ++ HostedManagedKubeconfigManifestworkSuffix) := by
  refine ⟨?_, ?_, ?_⟩
  · exact hostedWorkMapFunc_key.1 ⟨"cluster-b", "unrelated-name", []⟩ (by decide) (by decide)
  · exact hostedWorkMapFunc_key.2.1 ⟨"ns-x", "cluster-a-klusterlet", []⟩ (by decide)
  · exact hostedWorkMapFunc_key.2.2.1 ⟨"ns-x", "cluster-a-kubeconfig", []⟩ (by decide)

/-- C3 counterexample: the claim says creation and deletion events of import
secrets are routed unconditionally, but the source's `DeleteFunc` is
constantly false and its `CreateFunc` rejects a secret without the hosted
deploy-mode marker. -/
theorem importSecret_create_delete_not_unconditional :
    importSecretDeleteFunc ⟨"cluster-a", "cluster-a-import", [], []⟩ = false
    ∧ importSecretCreateFunc ⟨"cluster-a", "cluster-a-import", [], []⟩ = false := by
  decide

/-- C3 amended: creation of an import secret is routed exactly when the
secret carries the hosted deploy-mode marker; deletion (and generic)
events are never routed; update events are routed exactly when the
`Data` payload changed. -/
theorem importSecret_create_delete_predicates :
    (∀ s : Secret, importSecretCreateFunc s = isHostedModeObject s.annos)
    ∧ (∀ s : Secret, importSecretDeleteFunc s = false)
    ∧ (∀ s : Secret, importSecretGenericFunc s = false)
    ∧ (∀ oldS newS : Secret,
        importSecretUpdateFunc oldS newS = true ↔ oldS.data ≠ newS.data) := by
  refine ⟨fun s => rfl, fun s => rfl, fun s => rfl, fun oldS newS => ?_⟩
  simp [importSecretUpdateFunc]

/-- C9: both secret update predicates (import-secret source and auto-import
secret source) route exactly when the `Data` payload differs between old
and new object, and the key routed for a secret is its namespace (the
Cluster Identity). -/
theorem secretUpdate_routes_iff_data_changed :
    (∀ oldS newS : Secret,
        importSecretUpdateFunc oldS newS = true ↔ oldS.data ≠ newS.data)
    ∧ (∀ oldS newS : Secret,
        autoImportSecretUpdateFunc oldS newS = true ↔ oldS.data ≠ newS.data)
    ∧ (∀ s : Secret, secretEventKey s = s.nspace) := by
  refine ⟨fun oldS newS => ?_, fun oldS newS => ?_, fun s => rfl⟩
  · simp [importSecretUpdateFunc]
  · simp [autoImportSecretUpdateFunc]

/-- C5: finalizer cleanup removes the legacy import finalizer (leaving the
list empty) and emits the audit event exactly when it is present and is
the only finalizer (the list is `[ImportFinalizer]`); in every other case
— absent, or present alongside other finalizers — it performs no
mutation, emits no event and returns no error, whatever the patch
outcome would have been. -/
theorem removeImportFinalizer_spec (cd : ClusterDeployment) :
    (∀ pr, cd.finalizers ≠ [ImportFinalizer] →
       removeImportFinalizer pr cd = ⟨cd.finalizers, false, false, none⟩)
    ∧ (cd.finalizers = [ImportFinalizer] →
       removeImportFinalizer none cd = ⟨[], true, true, none⟩) := by
  constructor
  · intro pr hne
    unfold removeImportFinalizer
    by_cases hm : ImportFinalizer ∈ cd.finalizers
    · have hc : cd.finalizers.contains ImportFinalizer = true := by simpa using hm
      have hl : cd.finalizers.length ≠ 1 := fun hl =>
        hne (contains_and_length_one.mp ⟨hc, hl⟩)
      simp [hc, hl]
    · have hc : cd.finalizers.contains ImportFinalizer = false := by simpa using hm
      simp [hc]
      exact fun hmem _ => absurd hmem hm
  · intro heq
    unfold removeImportFinalizer
    rw [heq]
    simp

/-- C5 witness: cleanup evaluated through the theorem at the spec's two
finalizer-safety examples. -/
theorem removeImportFinalizer_spec_witness :
    removeImportFinalizer none ⟨"c1", [ImportFinalizer, "other-x"], 1, true, none, false, none⟩
      = ⟨[ImportFinalizer, "other-x"], false, false, none⟩
    ∧ removeImportFinalizer none ⟨"c1", [ImportFinalizer], 1, true, none, false, none⟩
      = ⟨[], true, true, none⟩ := by
  constructor
  · exact (removeImportFinalizer_spec _).1 none (by decide)
  · exact (removeImportFinalizer_spec _).2 (by decide)

/-- The provenance value chosen by the reconciler is never the discovery
value. -/
theorem desiredCreatedVia_ne_discovery (cd : ClusterDeployment) :
    desiredCreatedVia cd ≠ CreatedViaDiscovery := by
  unfold desiredCreatedVia
  cases hb : cd.agentBareMetal <;> decide

/-- C8: provenance-marker convergence is a conditional idempotent write: a
no-op (no patch, no event) when the discovery marker is present or the
current value already equals the desired one; otherwise it patches the
marker to the bare-metal-agent value or the hive value according to the
platform field and emits the event; and a second run on the first run's
output performs no patch and emits no event. -/
theorem setCreatedVia_convergence (cd : ClusterDeployment) (mc : ManagedCluster) :
    (lookupDefault mc.annos CreatedViaKey = CreatedViaDiscovery →
       setCreatedViaAnnos none cd mc = ⟨mc.annos, false, false, none⟩)
    ∧ (mc.annos.lookup CreatedViaKey = some (desiredCreatedVia cd) →
       setCreatedViaAnnos none cd mc = ⟨mc.annos, false, false, none⟩)
    ∧ (lookupDefault mc.annos CreatedViaKey ≠ CreatedViaDiscovery →
       mc.annos.lookup CreatedViaKey ≠ some (desiredCreatedVia cd) →
       setCreatedViaAnnos none cd mc =
         ⟨setAnno mc.annos CreatedViaKey
            (if cd.agentBareMetal then CreatedViaAI else CreatedViaHive),
          true, true, none⟩)
    ∧ ((setCreatedViaAnnos none cd
          ⟨mc.name, (setCreatedViaAnnos none cd mc).value⟩).patched = false
       ∧ (setCreatedViaAnnos none cd
          ⟨mc.name, (setCreatedViaAnnos none cd mc).value⟩).eventEmitted = false) := by
  refine ⟨?_, ?_, ?_, ?_⟩
  · intro h
    simp [setCreatedViaAnnos, h]
  · intro h
    have hd : lookupDefault mc.annos CreatedViaKey ≠ CreatedViaDiscovery := by
      unfold lookupDefault
      rw [h]
      exact desiredCreatedVia_ne_discovery cd
    simp [setCreatedViaAnnos, hd, h]
  · intro hd hl
    unfold desiredCreatedVia at hl
    simp [setCreatedViaAnnos, hd, hl, desiredCreatedVia]
  · by_cases h1 : lookupDefault mc.annos CreatedViaKey = CreatedViaDiscovery
    · simp [setCreatedViaAnnos, h1]
    · by_cases h2 : mc.annos.lookup CreatedViaKey = some (desiredCreatedVia cd)
      · simp [setCreatedViaAnnos, h1, h2]
      · have hl := lookup_setAnno mc.annos CreatedViaKey (desiredCreatedVia cd)
        have hd2 : lookupDefault (setAnno mc.annos CreatedViaKey (desiredCreatedVia cd))
            CreatedViaKey ≠ CreatedViaDiscovery := by
          unfold lookupDefault
          rw [hl]
          exact desiredCreatedVia_ne_discovery cd
        simp [setCreatedViaAnnos, h1, h2, hd2, hl]

/-- C8 witness: a cluster record whose marker already equals the desired
hive value is left untouched. -/
theorem setCreatedVia_convergence_witness :
    setCreatedViaAnnos none cdReady mcReady = ⟨mcReady.annos, false, false, none⟩ :=
  (setCreatedVia_convergence cdReady mcReady).2.1 (by decide)

/-- C4: when every readiness gate passes and application is attempted,
exactly one status condition is written reflecting the outcome: on
success `ManagedClusterImportSucceeded`/True/"ManagedClusterImported";
on application failure with error `e` the condition is
False/"ManagedClusterNotImported" with a message containing `e`'s text;
and the returned aggregate collects the application error and the
condition-write error together (`w.updateStatus.toList` is `[]` on a
successful write and the write error otherwise). -/
theorem reconcile_outcome_condition (w : World) (cd : ClusterDeployment)
    (mc : ManagedCluster) (m : String)
    (hcd : w.clusterDeployment = .found cd)
    (hdel : cd.deletionTimestamp = 0)
    (hmc : w.managedCluster = .found mc)
    (hins : cd.installed = true)
    (hclaim : cd.clusterPoolRef ≠ some 0)
    (hanno : (setCreatedViaAnnos w.patchCluster cd mc).error = none)
    (hauto : w.autoImportSecret = .notFound)
    (hmeta : cd.clusterMetadata = some m)
    (hhive : w.hiveSecret = .found ())
    (hclient : w.generateClient = none)
    (himp : w.importSecret = .found ())
    (hworks : w.worksList = .ok 2) :
    ∃ eff errs, Reconcile w = .ret eff errs ∧ eff.applied = true ∧
      ((w.importFromSecret = none →
          eff.conditionWritten = some successCondition ∧
          successCondition.status = true ∧
          successCondition.reason = "ManagedClusterImported" ∧
          errs = w.updateStatus.toList)
       ∧ (∀ e, w.importFromSecret = some e →
          eff.conditionWritten = some (failureCondition cd.name e) ∧
          (failureCondition cd.name e).status = false ∧
          (failureCondition cd.name e).reason = "ManagedClusterNotImported" ∧
          (∃ p, (failureCondition cd.name e).message = p ++ e) ∧
          errs = e :: w.updateStatus.toList)) := by
  have hrec : Reconcile w = .ret
      { clusterPatched := (setCreatedViaAnnos w.patchCluster cd mc).patched,
        clusterEventEmitted := (setCreatedViaAnnos w.patchCluster cd mc).eventEmitted,
        applied := true,
        conditionWritten := some (match w.importFromSecret with
          | none => successCondition
          | some e => failureCondition cd.name e) }
      ((match w.importFromSecret with | none => [] | some e => [e]) ++
        (match w.updateStatus with | none => [] | some e => [e])) := by
    simp [Reconcile, hcd, hdel, hmc, hins, hclaim, hanno, hauto, hmeta, hhive,
      hclient, himp, hworks]
  refine ⟨_, _, hrec, rfl, ?_, ?_⟩
  · intro hif
    cases hus : w.updateStatus <;>
      simp [hif, hus, Option.toList, successCondition]
  · intro e hif
    refine ⟨by simp [hif], rfl, rfl,
      ⟨"Unable to import " ++ cd.name ++ ": ", rfl⟩, ?_⟩
    cases hus : w.updateStatus <;> simp [hif, hus, Option.toList]

/-- C4 witness: the theorem applied to the world where both the manifest
application and the condition write fail; both errors are returned. -/
theorem reconcile_outcome_condition_witness :
    ∃ eff errs, Reconcile wBothFail = .ret eff errs ∧ eff.applied = true ∧
      eff.conditionWritten = some (failureCondition "c1" "boom") ∧
      errs = ["boom", "cond write failed"] := by
  obtain ⟨eff, errs, h1, h2, -, h3⟩ :=
    reconcile_outcome_condition wBothFail cdReady mcReady "c1-admin-kubeconfig"
      rfl rfl rfl rfl (by decide) (by decide) rfl rfl rfl rfl rfl rfl
  obtain ⟨h4, -, -, -, h5⟩ := h3 "boom" rfl
  exact ⟨eff, errs, h1, h2, h4, by simpa using h5⟩

/-- C6: whenever a readiness dependency is absent — the install record, the
cluster record, the installed flag, a satisfied pool claim, the absence
of the auto-import override, the import secret, or a labeled work count
of exactly 2 — and every operation before the missing dependency
succeeded, `Reconcile` returns a nil aggregate error (and the source
always returns an empty result, i.e. no requeue), applies no manifests
and writes no condition. -/
theorem reconcile_absence_silent_noop (w : World) (h : gateAbsence w) :
    ∃ eff, Reconcile w = .ret eff [] ∧ eff.applied = false ∧
      eff.conditionWritten = none := by
  rcases h with h | ⟨cd, h1, h2, h3⟩ | ⟨cd, mc, h1, h2, h3, h4⟩
    | ⟨cd, mc, h1, h2, h3, h4, h5⟩
    | ⟨cd, mc, ⟨h1, h2, h3, h4, h5⟩, h6, h7⟩
    | ⟨cd, mc, ⟨⟨h1, h2, h3, h4, h5⟩, h6, h7, h8, h9, h10⟩, h11⟩
    | ⟨cd, mc, n, ⟨⟨h1, h2, h3, h4, h5⟩, h6, h7, h8, h9, h10⟩, h11, h12, h13⟩
  · exact ⟨{}, by simp [Reconcile, h], rfl, rfl⟩
  · exact ⟨{}, by simp [Reconcile, h1, h2, h3], rfl, rfl⟩
  · exact ⟨{}, by simp [Reconcile, h1, h2, h3, h4], rfl, rfl⟩
  · exact ⟨{}, by simp [Reconcile, h1, h2, h3, h4, h5], rfl, rfl⟩
  · exact ⟨{ clusterPatched := (setCreatedViaAnnos w.patchCluster cd mc).patched,
             clusterEventEmitted := (setCreatedViaAnnos w.patchCluster cd mc).eventEmitted },
      by simp [Reconcile, h1, h2, h3, h4, h5, h6, h7], rfl, rfl⟩
  · obtain ⟨m, hm⟩ := Option.isSome_iff_exists.mp h8
    exact ⟨{ clusterPatched := (setCreatedViaAnnos w.patchCluster cd mc).patched,
             clusterEventEmitted := (setCreatedViaAnnos w.patchCluster cd mc).eventEmitted },
      by simp [Reconcile, h1, h2, h3, h4, h5, h6, h7, hm, h9, h10, h11], rfl, rfl⟩
  · obtain ⟨m, hm⟩ := Option.isSome_iff_exists.mp h8
    exact ⟨{ clusterPatched := (setCreatedViaAnnos w.patchCluster cd mc).patched,
             clusterEventEmitted := (setCreatedViaAnnos w.patchCluster cd mc).eventEmitted },
      by simp [Reconcile, h1, h2, h3, h4, h5, h6, h7, hm, h9, h10, h11, h12, h13],
      rfl, rfl⟩

/-- C6 witness: the theorem applied to the world with no install record. -/
theorem reconcile_absence_silent_noop_witness :
    ∃ eff, Reconcile wNoDeployment = .ret eff [] ∧ eff.applied = false ∧
      eff.conditionWritten = none :=
  reconcile_absence_silent_noop wNoDeployment (Or.inl rfl)

/-- C7: manifests are never applied unless the install record exists with
installed = true, the import secret exists and exactly 2 labeled work
objects exist; and with the earlier gates passed, any labeled work count
other than 2 is a silent no-op with no application. -/
theorem reconcile_apply_gating :
    (∀ w eff errs, Reconcile w = .ret eff errs → eff.applied = true →
       ∃ cd, w.clusterDeployment = .found cd ∧ cd.installed = true ∧
         w.importSecret = .found () ∧ w.worksList = .ok 2)
    ∧ (∀ w cd mc n, gatesToImportSecret w cd mc → w.importSecret = .found () →
       w.worksList = .ok n → n ≠ 2 →
       ∃ eff, Reconcile w = .ret eff [] ∧ eff.applied = false) := by
  constructor
  · intro w eff errs h happ
    simp only [Reconcile] at h
    repeat' split at h
    all_goals simp_all
    all_goals (obtain ⟨he, -⟩ := h; rw [← he] at happ; simp at happ)
  · intro w cd mc n hg himp hworks hn
    obtain ⟨⟨h1, h2, h3, h4, h5⟩, h6, h7, h8, h9, h10⟩ := hg
    obtain ⟨m, hm⟩ := Option.isSome_iff_exists.mp h8
    exact ⟨{ clusterPatched := (setCreatedViaAnnos w.patchCluster cd mc).patched,
             clusterEventEmitted := (setCreatedViaAnnos w.patchCluster cd mc).eventEmitted },
      by simp [Reconcile, h1, h2, h3, h4, h5, h6, h7, hm, h9, h10, himp, hworks, hn],
      rfl⟩

/-- C7 witness: the all-gates-pass world does apply, and the gating theorem
recovers its preconditions. -/
theorem reconcile_apply_gating_witness :
    ∃ cd, wAllOk.clusterDeployment = .found cd ∧ cd.installed = true ∧
      wAllOk.importSecret = .found () ∧ wAllOk.worksList = .ok 2 :=
  reconcile_apply_gating.1 wAllOk
    { applied := true, conditionWritten := some successCondition } []
    (by decide) rfl

/-- C10: an installed cluster deployment with a nil `ClusterMetadata`
pointer that reaches the credential-resolution step makes `Reconcile`
dereference nil and panic rather than return an error: the concrete world
`wNilMetadata` panics, and every panicking run had an installed
deployment with nil metadata and no auto-import override. -/
theorem reconcile_nil_metadata_panics :
    Reconcile wNilMetadata = .nilDerefPanic {}
    ∧ (∀ w eff, Reconcile w = .nilDerefPanic eff →
        ∃ cd, w.clusterDeployment = .found cd ∧ cd.installed = true ∧
          cd.clusterMetadata = none ∧ w.autoImportSecret = .notFound) := by
  constructor
  · decide
  · intro w eff h
    simp only [Reconcile] at h
    repeat' split at h
    all_goals simp_all

/-- C10 witness: the inversion applied to the concrete panicking world. -/
theorem reconcile_nil_metadata_panics_witness :
    ∃ cd, wNilMetadata.clusterDeployment = .found cd ∧ cd.installed = true ∧
      cd.clusterMetadata = none ∧ wNilMetadata.autoImportSecret = .notFound :=
  reconcile_nil_metadata_panics.2 wNilMetadata {} reconcile_nil_metadata_panics.1

end MCImport
